import Mathlib

/-!
Shallow embedding of the core request/response pipeline of the
`frameioclient` library (files `client.py` and `download.py`):

* `pyInt` — Python's `int(str)` coercion (partial: `none` models `ValueError`);
* `PaginatedResponse` and its constructor (`client.py` lines 15-25);
* `apiCallInterpret` — the response-handling tail of `FrameioClient._api_call`
  (`client.py` lines 68-86), covering pagination wrapping, the
  `PresentationException` branch, and `raise_for_status`;
* `retryLoop` / `dispatchAttempts` — the retry behaviour of the configured
  urllib3 `Retry(total=3, status_forcelist=[429],
  method_whitelist=["POST","OPTIONS","GET"])` strategy
  (`client.py` lines 31-36); the urllib3 `urlopen` retry loop is embedded
  as the semantics of that configuration: `total` counts retries, and
  `MaxRetryError` is raised when the counter would drop below zero;
* `FrameioDownloader.download` (`download.py` lines 10-19), with the
  filesystem as an explicit map from paths to byte contents.
-/

/-- Strip leading and trailing whitespace from a character list (the
whitespace stripping `int(str)` performs). -/
def pyStrip (cs : List Char) : List Char :=
  ((cs.dropWhile Char.isWhitespace).reverse.dropWhile Char.isWhitespace).reverse

/-- Python `int(s)` on a string: strips surrounding whitespace, accepts an
optional sign followed by at least one digit; any other shape raises
`ValueError`, modelled by `none`. -/
def pyIntDigits : List Char → Option Nat
  | [] => none
  | cs => if cs.all (fun c => c.isDigit)
            then some (cs.foldl (fun a c => a * 10 + (c.toNat - 48)) 0)
            else none

/-- Python `int : str → int`, `none` standing for `ValueError`. -/
def pyInt (s : String) : Option Int :=
  match pyStrip s.data with
  | '+' :: rest => (pyIntDigits rest).map (fun n => (n : Int))
  | '-' :: rest => (pyIntDigits rest).map (fun n => -(n : Int))
  | cs => (pyIntDigits cs).map (fun n => (n : Int))

/-- An HTTP response as `_api_call` sees it: status code, headers, and the
already-JSON-decoded body (`r.json()`), the decoded body being of an
arbitrary type `α`. -/
structure HttpResponse (α : Type) where
  status : Nat
  headers : List (String × String)
  body : α
deriving DecidableEq

/-- Header lookup, `r.headers.get(k)`: `none` when the header is absent. -/
def getHeader (hs : List (String × String)) (k : String) : Option String :=
  (hs.find? (fun kv => kv.1 == k)).map (fun kv => kv.2)

/-- `requests.Response.ok`: true iff `raise_for_status` would not raise,
i.e. iff the status code is outside 400-599. -/
def respOk (status : Nat) : Bool :=
  !(400 ≤ status && status < 600)

/-- Contiguous-sublist test on character lists. -/
def listContainsSub (s pat : List Char) : Bool :=
  match s with
  | [] => pat.isEmpty
  | _ :: rest => pat.isPrefixOf s || listContainsSub rest pat

/-- Python's `pat in s` substring test. -/
def strContains (s pat : String) : Bool :=
  listContainsSub s.data pat.data

/-- `PaginatedResponse` (`client.py` lines 15-25).  The integer fields are
Python ints, so `Int`; `results` is the decoded body. -/
structure PaginatedResponse (α : Type) where
  results : α
  page : Int
  page_size : Int
  total : Int
  total_pages : Int
deriving DecidableEq

/-- `PaginatedResponse.__init__` as called from `_api_call`, where every
metadata argument is a header string: each is passed through `int(...)`,
in the order the constructor body runs (`page`, `page_size`, `total`,
`total_pages`); the first malformed one raises `ValueError` (`none`). -/
def PaginatedResponse.init? (results : α)
    (page page_size total total_pages : String) :
    Option (PaginatedResponse α) :=
  match pyInt page with
  | none => none
  | some p =>
    match pyInt page_size with
    | none => none
    | some ps =>
      match pyInt total with
      | none => none
      | some t =>
        match pyInt total_pages with
        | none => none
        | some tp => some ⟨results, p, ps, t, tp⟩

/-- `PaginatedResponse.__iter__` returns `iter(self.results)`: iterating a
paginated response traverses exactly its `results`, nothing else. -/
def PaginatedResponse.iterate (p : PaginatedResponse α) : α :=
  p.results

/-- Outcome of the response-handling tail of `_api_call`: a returned value
(plain decoded body or `PaginatedResponse`), or a raised exception.
`typeError` models `int(None)` when `total-pages` is absent; `valueError`
models `int` on a malformed string; `keyError` models a missing bracketed
header lookup; `httpError` models the `requests.HTTPError` raised by
`raise_for_status`, which carries the response (status and body). -/
inductive ApiOutcome (α : Type) where
  | body (b : α)
  | paginated (p : PaginatedResponse α)
  | typeError
  | valueError
  | keyError (k : String)
  | presentationException
  | httpError (status : Nat) (b : α)
deriving DecidableEq

/-- The response-handling tail of `FrameioClient._api_call`
(`client.py` lines 68-86), applied to the terminal response `r` obtained
for `endpoint`:

```
if r.ok:
  if r.headers.get('page-number'):
    if int(r.headers.get('total-pages')) > 1:
      return PaginatedResponse(results=r.json(), page=..., page_size=...,
                               total_pages=..., total=...)
  return r.json()
if r.status_code == 422 and "presentation" in endpoint:
  raise PresentationException
return r.raise_for_status()
```

`r.headers.get('page-number')` is truthy iff present and non-empty; the
bracketed lookups `r.headers['per-page']` / `r.headers['total']` raise
`KeyError` when absent. -/
def apiCallInterpret (endpoint : String) (r : HttpResponse α) : ApiOutcome α :=
  if respOk r.status then
    match getHeader r.headers "page-number" with
    | some p =>
      if p ≠ "" then
        match getHeader r.headers "total-pages" with
        | none => .typeError
        | some tp =>
          match pyInt tp with
          | none => .valueError
          | some n =>
            if 1 < n then
              match getHeader r.headers "per-page" with
              | none => .keyError "per-page"
              | some ps =>
                match getHeader r.headers "total" with
                | none => .keyError "total"
                | some t =>
                  match PaginatedResponse.init? r.body p ps t tp with
                  | none => .valueError
                  | some pr => .paginated pr
            else .body r.body
      else .body r.body
    | none => .body r.body
  else if r.status == 422 && strContains endpoint "presentation" then
    .presentationException
  else
    .httpError r.status r.body

/-- The urllib3 `Retry` configuration built in `FrameioClient.__init__`
(`client.py` lines 31-36): the fields used by the status-based retry loop. -/
structure RetryPolicy where
  total : Nat
  backoff_factor : Nat
  status_forcelist : List Nat
  method_whitelist : List String

/-- `self.retry_strategy` from `FrameioClient.__init__`:
`Retry(total=3, backoff_factor=1, status_forcelist=[429],
method_whitelist=["POST", "OPTIONS", "GET"])`. -/
def retry_strategy : RetryPolicy :=
  ⟨3, 1, [429], ["POST", "OPTIONS", "GET"]⟩

/-- ASCII upper-casing of a method string (`method.upper()` as applied by
urllib3 before consulting the method whitelist). -/
def strUpper (s : String) : String :=
  ⟨s.data.map Char.toUpper⟩

/-- urllib3 `Retry.is_retry` for a status-based retry: the method (upper
cased) must be whitelisted and the status must be in the forcelist. -/
def RetryPolicy.isRetry (p : RetryPolicy) (method : String) (status : Nat) : Bool :=
  p.method_whitelist.contains (strUpper method) && p.status_forcelist.contains status

/-- The urllib3 `urlopen` retry loop for status-forced retries, as driven by
`Retry.increment`: `remaining` is the current `total` counter and `i` the
zero-based index of the attempt about to be issued; `statuses i` is the
status code the `i`-th attempt receives.  After a retryable status,
`increment` decrements `total` and raises `MaxRetryError` exactly when the
counter would become negative.  Returns the number of attempts issued,
paired with `some finalStatus` for a returned response or `none` for a
raised `MaxRetryError` (surfaced by requests as `RetryError`). -/
def retryLoop (p : RetryPolicy) (method : String) (statuses : Nat → Nat) :
    Nat → Nat → Nat × Option Nat
  | remaining, i =>
    if p.isRetry method (statuses i) then
      match remaining with
      | 0 => (i + 1, none)
      | r + 1 => retryLoop p method statuses r (i + 1)
    else
      (i + 1, some (statuses i))

/-- One logical `_api_call` dispatch under the client's configured retry
strategy: attempts issued and final outcome. -/
def dispatchAttempts (method : String) (statuses : Nat → Nat) : Nat × Option Nat :=
  retryLoop retry_strategy method statuses retry_strategy.total 0

/-- The asset descriptor as `FrameioDownloader.download` reads it: the
`name` and `original` keys (`download.py` lines 13, 17). -/
structure Asset where
  name : String
  original : String

/-- A response to the plain `requests.get(url)` in the downloader: status
code and raw byte content (`r.content`). -/
structure DlResponse where
  status : Nat
  content : List Nat
deriving DecidableEq

/-- Whether a string starts with the character `c`. -/
def strStartsWithChar (s : String) (c : Char) : Bool :=
  match s.data with
  | [] => false
  | a :: _ => a == c

/-- Whether a string ends with the character `c`. -/
def strEndsWithChar (s : String) (c : Char) : Bool :=
  match s.data.reverse with
  | [] => false
  | a :: _ => a == c

/-- Python `os.path.join` on two components (POSIX): an absolute second
component discards the first; otherwise a single separator joins them. -/
def os_path_join (d f : String) : String :=
  if strStartsWithChar f '/' then f
  else if d = "" then f
  else if strEndsWithChar d '/' then d ++ f
  else d ++ "/" ++ f

/-- `FrameioDownloader.download` (`download.py` lines 10-19):

```
original_filename = self.asset['name']
final_destination = os.path.join(self.download_folder, original_filename)
url = self.asset['original']
r = requests.get(url)
open(final_destination, 'wb').write(r.content)
```

The network is `fetch` (what `requests.get` returns per URL) and the local
filesystem is a map from paths to byte contents; the result is the
filesystem after the call.  The body is written whatever the response
status is (`'wb'` truncates, so an existing file is overwritten), and no
exception path exists for a non-success status. -/
def FrameioDownloader.download (asset : Asset) (download_folder : String)
    (fetch : String → DlResponse) (fs : String → Option (List Nat)) :
    String → Option (List Nat) :=
  let final_destination := os_path_join download_folder asset.name
  let r := fetch asset.original
  fun p => if p = final_destination then some r.content else fs p

example : dispatchAttempts "GET" (fun _ => 429) = (4, none) := by decide
example : dispatchAttempts "get" (fun _ => 429) = (4, none) := by decide
example : dispatchAttempts "PUT" (fun _ => 429) = (1, some 429) := by decide
example : dispatchAttempts "GET" (fun _ => 200) = (1, some 200) := by decide
example :
    dispatchAttempts "GET" (fun i => if i < 2 then 429 else 200) = (3, some 200) := by
  decide
example : os_path_join "D" "clip.mp4" = "D/clip.mp4" := by decide
example : pyInt "12" = some 12 := by decide
example : pyInt " -3 " = some (-3) := by decide
example : pyInt "abc" = none := by decide
example : pyInt "" = none := by decide
example : strContains "/assets/1/presentations" "presentation" = true := by decide
example : strContains "/assets/1/comments" "presentation" = false := by decide
example :
    apiCallInterpret "/x"
      (HttpResponse.mk 200
        [("page-number", "1"), ("total-pages", "2"), ("per-page", "0"), ("total", "0")]
        ([7] : List Nat)) =
      .paginated ⟨[7], 1, 0, 0, 2⟩ := by decide

/-- `2xx` success test for the downloader's fetch (the claims' notion of a
successful GET of the pre-signed URL). -/
def isSuccess (status : Nat) : Bool :=
  200 ≤ status && status < 300

/-- Helper: a `2xx` status satisfies `respOk`. -/
theorem respOk_of_2xx {s : Nat} (h1 : 200 ≤ s) (h2 : s < 300) :
    respOk s = true := by
  simp only [respOk, Bool.not_eq_true', Bool.and_eq_false_iff,
    decide_eq_false_iff_not, not_le, not_lt]
  omega

/-- Helper: a successful `PaginatedResponse.init?` stored exactly the
`int` coercion of its `total_pages` string. -/
theorem PaginatedResponse.init?_total_pages {α : Type} (results : α)
    (page page_size total total_pages : String) (pr : PaginatedResponse α)
    (h : PaginatedResponse.init? results page page_size total total_pages = some pr) :
    pyInt total_pages = some pr.total_pages := by
  unfold PaginatedResponse.init? at h
  cases hp : pyInt page <;> rw [hp] at h
  · exact absurd h (by simp)
  · cases hps : pyInt page_size <;> rw [hps] at h
    · exact absurd h (by simp)
    · cases ht : pyInt total <;> rw [ht] at h
      · exact absurd h (by simp)
      · cases htp : pyInt total_pages <;> rw [htp] at h
        · exact absurd h (by simp)
        · injection h with h'
          subst h'
          rfl

/-- Helper: one retry step of the urllib3 loop when the counter is positive
and the attempt's status is retryable. -/
theorem retryLoop_step (method : String) (statuses : Nat → Nat) (rem i : Nat)
    (hri : RetryPolicy.isRetry retry_strategy method (statuses i) = true) :
    retryLoop retry_strategy method statuses (rem + 1) i =
      retryLoop retry_strategy method statuses rem (i + 1) := by
  rw [retryLoop]
  simp [hri]

/-- Helper: the urllib3 loop raises `MaxRetryError` when a retryable status
arrives with the counter at zero. -/
theorem retryLoop_exhaust (method : String) (statuses : Nat → Nat) (i : Nat)
    (hri : RetryPolicy.isRetry retry_strategy method (statuses i) = true) :
    retryLoop retry_strategy method statuses 0 i = (i + 1, none) := by
  rw [retryLoop]
  simp [hri]

/-- Claim C1, counterexample: a GET whose every attempt receives a 429 is
issued 4 times under `Retry(total=3, ...)` (urllib3's `total` counts
retries, not attempts), so a fourth attempt IS issued and the attempt
count is not 3. -/
theorem C1_counterexample :
    (dispatchAttempts "GET" (fun _ => 429)).1 ≠ 3 ∧
      dispatchAttempts "GET" (fun _ => 429) = (4, none) := by
  decide

/-- Claim C1, amended: for every request with a whitelisted method
(GET/POST/OPTIONS, case-insensitively) whose every attempt receives a 429
response, exactly 4 total attempts (1 initial + 3 retries) are made and
then the retries-exhausted error (`MaxRetryError`, surfaced by requests as
`RetryError`) is raised; no fifth attempt is ever issued. -/
theorem C1_four_attempts_then_exhausted (method : String) (statuses : Nat → Nat)
    (hm : retry_strategy.method_whitelist.contains (strUpper method) = true)
    (h : ∀ i, i < 4 → statuses i = 429) :
    dispatchAttempts method statuses = (4, none) := by
  have hr : ∀ i, i < 4 → RetryPolicy.isRetry retry_strategy method (statuses i) = true := by
    intro i hi
    rw [RetryPolicy.isRetry, h i hi, hm]
    decide
  unfold dispatchAttempts
  show retryLoop retry_strategy method statuses (2 + 1) 0 = (4, none)
  rw [retryLoop_step method statuses 2 0 (hr 0 (by omega))]
  show retryLoop retry_strategy method statuses (1 + 1) 1 = (4, none)
  rw [retryLoop_step method statuses 1 1 (hr 1 (by omega))]
  show retryLoop retry_strategy method statuses (0 + 1) 2 = (4, none)
  rw [retryLoop_step method statuses 0 2 (hr 2 (by omega))]
  show retryLoop retry_strategy method statuses 0 3 = (4, none)
  rw [retryLoop_exhaust method statuses 3 (hr 3 (by omega))]

/-- Claim C1, witness: the amended theorem at method `"GET"` and an
all-429 response stream. -/
theorem C1_four_attempts_then_exhausted_witness :
    retry_strategy.method_whitelist.contains (strUpper "GET") = true ∧
      dispatchAttempts "GET" (fun _ => 429) = (4, none) :=
  ⟨by decide,
    C1_four_attempts_then_exhausted "GET" (fun _ => 429) (by decide)
      (fun _ _ => rfl)⟩

/-- Claim C2, counterexample: downloading an asset whose `original` URL
answers 404 with body bytes `[101, 114, 114]` into directory `"D"` leaves a
file at `"D/clip.mp4"` containing exactly that error body — the GET status
is never inspected, no download error is raised (the function has no
failure outcome), and a file does exist at `D/<name>` afterwards. -/
theorem C2_counterexample :
    ((fun _ : String => DlResponse.mk 404 [101, 114, 114]) "https://s3/xyz").status = 404 ∧
      FrameioDownloader.download ⟨"clip.mp4", "https://s3/xyz"⟩ "D"
          (fun _ => DlResponse.mk 404 [101, 114, 114]) (fun _ => none) "D/clip.mp4" =
        some [101, 114, 114] := by
  constructor
  · rfl
  · decide

/-- Claim C2, amended: when the GET of the descriptor's `original` URL
returns a non-2xx status, the download operation does NOT raise any
error — it writes the full response body (the error body) to
`<download_folder>/<name>` exactly as in the success case. -/
theorem C2_error_body_still_written (asset : Asset) (download_folder : String)
    (fetch : String → DlResponse) (fs : String → Option (List Nat))
    (hfail : isSuccess (fetch asset.original).status = false) :
    FrameioDownloader.download asset download_folder fetch fs
        (os_path_join download_folder asset.name) =
      some (fetch asset.original).content := by
  simp [FrameioDownloader.download]

/-- Claim C2, witness: the amended theorem at a concrete 404 response. -/
theorem C2_error_body_still_written_witness :
    isSuccess ((fun _ : String => DlResponse.mk 404 [110, 111]) "https://s3/q").status = false ∧
      FrameioDownloader.download ⟨"a.mov", "https://s3/q"⟩ "out"
          (fun _ => DlResponse.mk 404 [110, 111]) (fun _ => none)
          (os_path_join "out" "a.mov") =
        some [110, 111] :=
  ⟨by decide,
    C2_error_body_still_written ⟨"a.mov", "https://s3/q"⟩ "out"
      (fun _ => DlResponse.mk 404 [110, 111]) (fun _ => none) (by decide)⟩

/-- Claim C3: for every terminal 2xx response whose headers carry a
non-empty `page-number` and whose `total-pages` coerces to an integer
greater than 1, `_api_call` returns a `PaginatedResponse` whose `page`,
`page_size`, `total` and `total_pages` fields are the integer coercions of
the `page-number`, `per-page`, `total` and `total-pages` header values and
whose `results` is the decoded body. -/
theorem C3_paginated_wrapping {α : Type} (endpoint : String) (r : HttpResponse α)
    (pn tp ps t : String) (np ntp nps nt : Int)
    (h200 : 200 ≤ r.status) (h300 : r.status < 300)
    (hpn : getHeader r.headers "page-number" = some pn) (hne : pn ≠ "")
    (htp : getHeader r.headers "total-pages" = some tp)
    (hntp : pyInt tp = some ntp) (h1 : 1 < ntp)
    (hps : getHeader r.headers "per-page" = some ps)
    (ht : getHeader r.headers "total" = some t)
    (hnp : pyInt pn = some np) (hnps : pyInt ps = some nps) (hnt : pyInt t = some nt) :
    apiCallInterpret endpoint r = .paginated ⟨r.body, np, nps, nt, ntp⟩ := by
  have hok : respOk r.status = true := respOk_of_2xx h200 h300
  simp [apiCallInterpret, hok, hpn, hne, htp, hntp, h1, hps, ht,
    PaginatedResponse.init?, hnp, hnps, hnt]

/-- Claim C3, witness: a concrete 200 response with
`page-number = 2`, `per-page = 3`, `total = 10`, `total-pages = 4` and body
`[1, 2, 3]` is wrapped into the matching `PaginatedResponse`. -/
theorem C3_paginated_wrapping_witness :
    getHeader [("page-number", "2"), ("per-page", "3"), ("total", "10"),
        ("total-pages", "4")] "page-number" = some "2" ∧
      apiCallInterpret "/teams"
          (HttpResponse.mk 200
            [("page-number", "2"), ("per-page", "3"), ("total", "10"), ("total-pages", "4")]
            ([1, 2, 3] : List Nat)) =
        .paginated ⟨[1, 2, 3], 2, 3, 10, 4⟩ :=
  ⟨by decide,
    C3_paginated_wrapping "/teams"
      (HttpResponse.mk 200
        [("page-number", "2"), ("per-page", "3"), ("total", "10"), ("total-pages", "4")]
        ([1, 2, 3] : List Nat))
      "2" "4" "3" "10" 2 4 3 10
      (by decide) (by decide) (by decide) (by decide) (by decide) (by decide)
      (by decide) (by decide) (by decide) (by decide) (by decide) (by decide)⟩

/-- Claim C4: for every terminal 2xx response that either lacks a
`page-number` header or carries a `total-pages` header coercing to 1,
`_api_call` returns the decoded body as-is, not wrapped in a
`PaginatedResponse`. -/
theorem C4_unwrapped_body {α : Type} (endpoint : String) (r : HttpResponse α)
    (h200 : 200 ≤ r.status) (h300 : r.status < 300)
    (h : getHeader r.headers "page-number" = none ∨
      ∃ tp, getHeader r.headers "total-pages" = some tp ∧ pyInt tp = some 1) :
    apiCallInterpret endpoint r = .body r.body := by
  have hok : respOk r.status = true := respOk_of_2xx h200 h300
  rcases h with h | ⟨tp, htp, h1⟩
  · simp [apiCallInterpret, hok, h]
  · cases hpn : getHeader r.headers "page-number" with
    | none => simp [apiCallInterpret, hok, hpn]
    | some pn =>
      by_cases hpe : pn = ""
      · simp [apiCallInterpret, hok, hpn, hpe]
      · simp [apiCallInterpret, hok, hpn, hpe, htp, h1]

/-- Claim C4, witness: the theorem at two concrete 200 responses, one with
no `page-number` header and one with `page-number` present and
`total-pages = 1`. -/
theorem C4_unwrapped_body_witness :
    getHeader ([] : List (String × String)) "page-number" = none ∧
      apiCallInterpret "/me" (HttpResponse.mk 200 [] ([42] : List Nat)) = .body [42] ∧
      apiCallInterpret "/teams"
          (HttpResponse.mk 204
            [("page-number", "1"), ("per-page", "50"), ("total", "7"), ("total-pages", "1")]
            ([7, 8] : List Nat)) =
        .body [7, 8] :=
  ⟨by decide,
    C4_unwrapped_body "/me" (HttpResponse.mk 200 [] ([42] : List Nat))
      (by decide) (by decide) (Or.inl (by decide)),
    C4_unwrapped_body "/teams"
      (HttpResponse.mk 204
        [("page-number", "1"), ("per-page", "50"), ("total", "7"), ("total-pages", "1")]
        ([7, 8] : List Nat))
      (by decide) (by decide) (Or.inr ⟨"1", by decide, by decide⟩)⟩

/-- Claim C5: a terminal 422 response raises `PresentationException` when
the endpoint path contains the substring `"presentation"`, and the generic
HTTP error carrying the status code and body when it does not. -/
theorem C5_422_classification {α : Type} (endpoint : String) (r : HttpResponse α)
    (h422 : r.status = 422) :
    (strContains endpoint "presentation" = true →
      apiCallInterpret endpoint r = .presentationException) ∧
    (strContains endpoint "presentation" = false →
      apiCallInterpret endpoint r = .httpError 422 r.body) := by
  have hok : respOk 422 = false := by decide
  constructor <;> intro hc <;> simp [apiCallInterpret, h422, hok, hc]

/-- Claim C5, witness: the theorem at a presentation endpoint and at a
non-presentation endpoint, both with a concrete 422 response. -/
theorem C5_422_classification_witness :
    strContains "/assets/9cee/presentations" "presentation" = true ∧
      apiCallInterpret "/assets/9cee/presentations"
          (HttpResponse.mk 422 [] ([] : List Nat)) = .presentationException ∧
      strContains "/comments/12" "presentation" = false ∧
      apiCallInterpret "/comments/12" (HttpResponse.mk 422 [] ([3] : List Nat)) =
        .httpError 422 [3] :=
  ⟨by decide,
    (C5_422_classification "/assets/9cee/presentations"
        (HttpResponse.mk 422 [] ([] : List Nat)) (by decide)).1 (by decide),
    by decide,
    (C5_422_classification "/comments/12"
        (HttpResponse.mk 422 [] ([3] : List Nat)) (by decide)).2 (by decide)⟩

/-- The data-model invariant the specification states for a Paginated
Result (results length at most `page_size`, `page ≥ 1`,
`page_size, total ≥ 0`, `total_pages ≥ 1`), written from the spec's words
so it can be compared with what the source actually constructs. -/
def PaginatedResponse.specInvariant {α : Type} (p : PaginatedResponse (List α)) : Prop :=
  (p.results.length : Int) ≤ p.page_size ∧ 1 ≤ p.page ∧ 0 ≤ p.page_size ∧
    0 ≤ p.total ∧ 1 ≤ p.total_pages

/-- Claim C6, counterexample: a 200 response with `page-number = 1`,
`total-pages = 2`, `per-page = 0`, `total = 0` and a one-element body is
wrapped into a `PaginatedResponse` whose `results` length (1) exceeds its
`page_size` (0): the construction enforces no field constraint beyond the
`total-pages > 1` guard, so the spec's invariant fails on a value the code
produces. -/
theorem C6_counterexample :
    apiCallInterpret "/teams"
        (HttpResponse.mk 200
          [("page-number", "1"), ("total-pages", "2"), ("per-page", "0"), ("total", "0")]
          ([7] : List Nat)) =
      .paginated ⟨[7], 1, 0, 0, 2⟩ ∧
    ¬ PaginatedResponse.specInvariant (⟨[7], 1, 0, 0, 2⟩ : PaginatedResponse (List Nat)) := by
  constructor
  · decide
  · intro hinv
    exact absurd hinv.1 (by decide)

/-- Claim C6, amended: the only invariant the code establishes for a
constructed Paginated Result is about `total_pages`: one is produced only
when the response's `total-pages` header coerces to an integer greater
than 1, and that integer is stored in the `total_pages` field (so
`total_pages ≥ 1` does hold); no bound relating `results` length to
`page_size`, and no sign constraint on `page`, `page_size` or `total`, is
enforced. -/
theorem C6_paginated_only_when_multipage {α : Type} (endpoint : String)
    (r : HttpResponse α) (p : PaginatedResponse α)
    (h : apiCallInterpret endpoint r = .paginated p) :
    ∃ tp, getHeader r.headers "total-pages" = some tp ∧
      pyInt tp = some p.total_pages ∧ 1 < p.total_pages := by
  unfold apiCallInterpret at h
  by_cases hok : respOk r.status = true
  · cases hpn : getHeader r.headers "page-number" with
    | none => simp [hok, hpn] at h
    | some pn =>
      by_cases hpe : pn = ""
      · simp [hok, hpn, hpe] at h
      · cases htp : getHeader r.headers "total-pages" with
        | none => simp [hok, hpn, hpe, htp] at h
        | some tp =>
          cases hn : pyInt tp with
          | none => simp [hok, hpn, hpe, htp, hn] at h
          | some n =>
            by_cases h1 : 1 < n
            · cases hps : getHeader r.headers "per-page" with
              | none => simp [hok, hpn, hpe, htp, hn, h1, hps] at h
              | some ps =>
                cases ht : getHeader r.headers "total" with
                | none => simp [hok, hpn, hpe, htp, hn, h1, hps, ht] at h
                | some t =>
                  cases hpr : PaginatedResponse.init? r.body pn ps t tp with
                  | none => simp [hok, hpn, hpe, htp, hn, h1, hps, ht, hpr] at h
                  | some pr =>
                    simp [hok, hpn, hpe, htp, hn, h1, hps, ht, hpr] at h
                    subst h
                    have htot := PaginatedResponse.init?_total_pages r.body pn ps t tp pr hpr
                    rw [hn] at htot
                    have hnp : n = pr.total_pages := by injection htot
                    subst hnp
                    exact ⟨tp, rfl, hn, h1⟩
            · simp [hok, hpn, hpe, htp, hn, h1] at h
  · rw [if_neg hok] at h
    split at h <;> simp at h

/-- Claim C6, witness: the amended theorem at a concrete multi-page
response. -/
theorem C6_paginated_only_when_multipage_witness :
    apiCallInterpret "/projects"
        (HttpResponse.mk 200
          [("page-number", "3"), ("total-pages", "5"), ("per-page", "2"), ("total", "9")]
          ([11, 12] : List Nat)) =
      .paginated ⟨[11, 12], 3, 2, 9, 5⟩ ∧
    (∃ tp,
      getHeader [("page-number", "3"), ("total-pages", "5"), ("per-page", "2"),
          ("total", "9")] "total-pages" = some tp ∧
        pyInt tp = some (5 : Int) ∧ (1 : Int) < 5) :=
  ⟨by decide,
    C6_paginated_only_when_multipage "/projects"
      (HttpResponse.mk 200
        [("page-number", "3"), ("total-pages", "5"), ("per-page", "2"), ("total", "9")]
        ([11, 12] : List Nat))
      ⟨[11, 12], 3, 2, 9, 5⟩ (by decide)⟩

/-- Claim C7: constructing a `PaginatedResponse` from header strings fails
(with `ValueError`, here `none`) whenever any of the four metadata values
is not a valid integer representation — no field is silently defaulted. -/
theorem C7_malformed_header_fails {α : Type} (results : α)
    (page page_size total total_pages : String)
    (h : pyInt page = none ∨ pyInt page_size = none ∨ pyInt total = none ∨
      pyInt total_pages = none) :
    PaginatedResponse.init? results page page_size total total_pages = none := by
  unfold PaginatedResponse.init?
  rcases h with h | h | h | h
  · simp [h]
  · cases hp : pyInt page <;> simp [h, hp]
  · cases hp : pyInt page <;> cases hps : pyInt page_size <;> simp [h, hp, hps]
  · cases hp : pyInt page <;> cases hps : pyInt page_size <;>
      cases ht : pyInt total <;> simp [h, hp, hps, ht]

/-- Claim C7, witness: the theorem at the non-numeric `page` string
`"abc"`. -/
theorem C7_malformed_header_fails_witness :
    pyInt "abc" = none ∧
      PaginatedResponse.init? ([] : List Nat) "abc" "3" "10" "4" = none :=
  ⟨by decide,
    C7_malformed_header_fails ([] : List Nat) "abc" "3" "10" "4"
      (Or.inl (by decide))⟩

/-- Claim C8: iterating a `PaginatedResponse` yields exactly its `results`
sequence in order and nothing more (no fetch of further pages exists in
`__iter__`); in particular, one built from `results = [a, b, c]`,
`page = 1`, `page_size = 3`, `total = 10`, `total_pages = 4` yields exactly
`a, b, c`. -/
theorem C8_iteration_yields_results {α : Type} (a b c : α)
    (p : PaginatedResponse (List α)) :
    p.iterate = p.results ∧
      (PaginatedResponse.mk [a, b, c] 1 3 10 4).iterate = [a, b, c] :=
  ⟨rfl, rfl⟩

/-- Claim C9: when the GET of the descriptor's `original` URL succeeds,
the download writes a file at `<folder>/<name>` (for an ordinary relative
`name` and non-empty folder without a trailing slash, exactly the path
`D/<name>`) whose content is the full fetched body, overwriting any
existing file there, and touches no other path. -/
theorem C9_download_writes_body (asset : Asset) (download_folder : String)
    (fetch : String → DlResponse) (fs : String → Option (List Nat))
    (hsucc : isSuccess (fetch asset.original).status = true)
    (hrel : strStartsWithChar asset.name '/' = false)
    (hne : download_folder ≠ "")
    (hns : strEndsWithChar download_folder '/' = false) :
    FrameioDownloader.download asset download_folder fetch fs
        (download_folder ++ "/" ++ asset.name) =
      some (fetch asset.original).content ∧
    ∀ q, q ≠ download_folder ++ "/" ++ asset.name →
      FrameioDownloader.download asset download_folder fetch fs q = fs q := by
  have hj : os_path_join download_folder asset.name =
      download_folder ++ "/" ++ asset.name := by
    unfold os_path_join
    simp [hrel, hne, hns]
  constructor
  · simp [FrameioDownloader.download, hj]
  · intro q hq
    simp [FrameioDownloader.download, hj, hq]

/-- Claim C9, witness: a concrete successful download of
`{name: "clip.mp4", original: "https://s3/ab"}` into `"D"`, over a
filesystem that already has a file at `"D/clip.mp4"` (overwritten). -/
theorem C9_download_writes_body_witness :
    isSuccess ((fun _ : String => DlResponse.mk 200 [1, 2, 3]) "https://s3/ab").status = true ∧
      FrameioDownloader.download ⟨"clip.mp4", "https://s3/ab"⟩ "D"
          (fun _ => DlResponse.mk 200 [1, 2, 3]) (fun _ => some [9, 9])
          ("D" ++ "/" ++ "clip.mp4") =
        some [1, 2, 3] :=
  ⟨by decide,
    (C9_download_writes_body ⟨"clip.mp4", "https://s3/ab"⟩ "D"
        (fun _ => DlResponse.mk 200 [1, 2, 3]) (fun _ => some [9, 9])
        (by decide) (by decide) (by decide) (by decide)).1⟩

/-- Claim C10: a terminal 2xx response with a non-empty `page-number`
header but no `total-pages` header at all makes the pipeline raise an
exception — `int(r.headers.get('total-pages'))` is `int(None)`, a
`TypeError` — instead of returning the decoded body or a Paginated
Result. -/
theorem C10_missing_total_pages_raises {α : Type} (endpoint : String)
    (r : HttpResponse α) (pn : String)
    (h200 : 200 ≤ r.status) (h300 : r.status < 300)
    (hpn : getHeader r.headers "page-number" = some pn) (hne : pn ≠ "")
    (htp : getHeader r.headers "total-pages" = none) :
    apiCallInterpret endpoint r = .typeError := by
  have hok : respOk r.status = true := respOk_of_2xx h200 h300
  simp [apiCallInterpret, hok, hpn, hne, htp]

/-- Claim C10, witness: the theorem at a concrete 200 response carrying
only `page-number`. -/
theorem C10_missing_total_pages_raises_witness :
    getHeader [("page-number", "2")] "total-pages" = none ∧
      apiCallInterpret "/teams"
          (HttpResponse.mk 200 [("page-number", "2")] ([5] : List Nat)) =
        .typeError :=
  ⟨by decide,
    C10_missing_total_pages_raises "/teams"
      (HttpResponse.mk 200 [("page-number", "2")] ([5] : List Nat)) "2"
      (by decide) (by decide) (by decide) (by decide) (by decide)⟩
